import Mathlib

/-!
Verification of `dwislicealign` (shard-recon).

Shallow embedding of `src/cmd/dwislicealign.cpp` (the `run()` driver of the
`dwislicealign` command) together with spec-modelled definitions for the
pipeline components (`SliceAlignSource`, `SliceAlignPipe`, `SliceAlignSink`)
declared in `dwi/svr/register.h`, which is part of the repository but not
present under `src/`.

Conventions of the embedding:
* machine sizes (`size_t`, `Eigen` row/column counts, image dimensions) are
  `Nat`;
* floating-point sample values and motion parameters are `ℚ` (the claims
  under study concern control flow, shapes and ordering, not rounding);
* external collaborators (image open, `load_vector`, `load_matrix`,
  gradient-table parsing) are abstracted as fields of the `Config` record
  holding the value they would return, `none` meaning they would throw;
* the straight-line body of `run()` is embedded as a function returning the
  program point (`Stage`) at which execution stopped together with the
  outcome (`RunResult`).
-/

namespace DwiSliceAlign

/-! Model of `std::stof`.

`std::stof(t)` calls `strtof` on the C string and throws
`std::invalid_argument` when no conversion could be performed, and
`std::out_of_range` when the converted value falls outside `float` range.
The model below covers decimal floating-point literals (optional leading
whitespace, optional sign, digits with optional fractional part, optional
decimal exponent); the hexadecimal, infinity and NaN spellings accepted by
`strtof` are outside the model, as is underflow to subnormals, and the
overflow threshold is taken at `FLT_MAX` exactly rather than at the
round-to-nearest boundary. The inputs exercised by the claims are plain
decimal literals, for which the model agrees with `strtof`.
-/

/-- Outcome of `std::stof`: a value, or one of the two exceptions. The value
is recorded exactly as the decimal `num · 10^exp10` (the parsed literal before
rounding to `float`); `decValue` below gives its rational interpretation. -/
inductive StofResult where
  | ok (num : Int) (exp10 : Int)
  | invalidArg
  | outOfRange
deriving DecidableEq

/-- The six characters recognised by C `isspace` in the default locale,
skipped by `strtof` before the number. -/
def isSpaceC (c : Char) : Bool :=
  c = ' ' || c = '\t' || c = '\n' || c = '\x0b' || c = '\x0c' || c = '\r'

/-- Consume a maximal run of decimal digits, returning the accumulated value,
the number of digits consumed, and the rest of the input. -/
def parseDigits : List Char → Nat → Nat → Nat × Nat × List Char
  | c :: cs, acc, n =>
      if c.isDigit then parseDigits cs (10 * acc + (c.toNat - 48)) (n + 1)
      else (acc, n, c :: cs)
  | [], acc, n => (acc, n, [])

/-- Value of `FLT_MAX`, that is (2^24 − 1) · 2^104, as a natural number. -/
def fltMaxN : Nat := (2 ^ 24 - 1) * 2 ^ 104

/-- Whether `mant · 10^e10` exceeds `FLT_MAX` in magnitude (computed in `Nat`
by cross-multiplication). -/
def overflows (mant : Nat) (e10 : Int) : Bool :=
  match e10 with
  | .ofNat k => fltMaxN < mant * 10 ^ k
  | .negSucc k => fltMaxN * 10 ^ (k + 1) < mant

/-- The rational value `num · 10^exp10` denoted by a parsed decimal literal. -/
def decValue (num exp10 : Int) : ℚ :=
  (num : ℚ) * (10 : ℚ) ^ exp10

/-- Parse an optional exponent part (`e`/`E`, optional sign, digits); the
exponent is consumed only when at least one digit follows, as in `strtof`. -/
def parseExponent (s : List Char) : Int :=
  match s with
  | c :: r =>
      if c = 'e' || c = 'E' then
        match r with
        | '-' :: r2 =>
            let (ev, ne, _) := parseDigits r2 0 0
            if ne = 0 then 0 else -(ev : Int)
        | '+' :: r2 =>
            let (ev, ne, _) := parseDigits r2 0 0
            if ne = 0 then 0 else (ev : Int)
        | _ =>
            let (ev, ne, _) := parseDigits r 0 0
            if ne = 0 then 0 else (ev : Int)
      else 0
  | [] => 0

/-- Model of `std::stof` on the character list of the argument string. -/
def stofChars (s : List Char) : StofResult :=
  let s1 := s.dropWhile isSpaceC
  let (neg, s2) :=
    match s1 with
    | '-' :: r => (true, r)
    | '+' :: r => (false, r)
    | _ => (false, s1)
  let (ip, nInt, s3) := parseDigits s2 0 0
  let (fp, nFrac, s4) :=
    match s3 with
    | '.' :: r => parseDigits r 0 0
    | _ => (0, 0, s3)
  if nInt + nFrac = 0 then .invalidArg
  else
    let mant : Nat := ip * 10 ^ nFrac + fp
    let e10 : Int := parseExponent s4 - (nFrac : Int)
    if overflows mant e10 then .outOfRange
    else .ok (if neg then -(mant : Int) else (mant : Int)) e10

/-- Model of `std::stof` on a string. -/
def stofModel (s : String) : StofResult := stofChars s.data

/-! SSP argument parsing (`run()`, lines 101–116).

```cpp
DWI::SVR::SSP<float> ssp (DEFAULT_SSPW);
opt = get_options("ssp");
if (opt.size()) {
  std::string t = opt[0][0];
  try {
    ssp = DWI::SVR::SSP<float>(std::stof(t));
  } catch (std::invalid_argument& e) {
    try {
      Eigen::VectorXf v = load_vector<float>(t);
      ssp = DWI::SVR::SSP<float>(v);
    } catch (...) {
      throw Exception ("Invalid argument for SSP.");
    }
  }
}
```
`load_vector` is an external utility; the `Config` record carries the vector
it would return (`none` meaning it throws). -/

/-- The configured SSP: a scalar width (as the exact parsed decimal
`num · 10^exp10`) or an explicit weight vector. -/
inductive SSPKind where
  | scalar (num exp10 : Int)
  | vec (v : List ℚ)
deriving DecidableEq

/-- How the SSP configuration step fails: the `Exception("Invalid argument
for SSP.")` raised when both parses fail, or an `std::out_of_range` from
`std::stof` that no handler catches. -/
inductive SSPErr where
  | invalidSSP
  | oor
deriving DecidableEq

/-- Default SSP, `DEFAULT_SSPW = 1.0f`. -/
def defaultSSP : SSPKind := .scalar 1 0

/-- The SSP configuration logic of `run()`: absent option keeps the default;
otherwise try `std::stof`, fall back to `load_vector` only on
`std::invalid_argument`, and raise the configuration error when the fallback
also fails. An `std::out_of_range` from `std::stof` is not caught by either
handler. -/
def parseSSPArg (arg : Option String) (loadVec : Option (List ℚ)) :
    Except SSPErr SSPKind :=
  match arg with
  | none => .ok defaultSSP
  | some t =>
      match stofModel t with
      | .ok n e => .ok (.scalar n e)
      | .outOfRange => .error .oor
      | .invalidArg =>
          match loadVec with
          | some v => .ok (.vec v)
          | none => .error .invalidSSP

/-! Configuration record.

One field per piece of data `run()` obtains from its external collaborators
(argument list, image headers, vector/matrix loaders). `dataDims` is the size
vector of the primary DWI image; slice count is `data.size(2)` and volume
count `data.size(3)`. -/

structure Config where
  /-- sizes of the input DWI image `data` (axis 0,1,2,3,...). -/
  dataDims : List Nat
  /-- value of `mssh.ndim()`. -/
  msshNdim : Nat
  /-- sizes of the MSSH image. -/
  msshDims : List Nat
  /-- the MSSH header key-value pairs, `mssh.keyval()`. -/
  msshKeyval : List (String × String)
  /-- sizes of the mask image when `-mask` is given. -/
  maskDims : Option (List Nat)
  /-- value of the `-mb` option. -/
  mbOpt : Option Nat
  /-- string given to the `-ssp` option. -/
  sspArg : Option String
  /-- what `load_vector<float>` would return for `sspArg` (`none` = throw). -/
  sspVector : Option (List ℚ)
  /-- what `load_matrix<float>` returns for the `-init` file, when given. -/
  initMatrix : Option (List (List ℚ))
  /-- value of the `-maxiter` option. -/
  maxiterOpt : Option Nat
  /-- when `-multiecho` is given: sizes of the second-echo DWI and MSSH. -/
  multiecho : Option (List Nat × List Nat)
deriving DecidableEq

/-- Slice count, `data.size(2)`: the through-slice dimension. -/
def Config.nz (c : Config) : Nat := c.dataDims.getD 2 0

/-- Volume count, `data.size(3)`. -/
def Config.nv (c : Config) : Nat := c.dataDims.getD 3 0

/-- Lookup `mssh.keyval().find("shells")`: association-list search, `none` standing
for the end iterator. -/
def findShells (kv : List (String × String)) : Option String :=
  (kv.find? (fun p => p.1 == "shells")).map Prod.snd

/-- Check `check_dimensions(data, mask, 0, 3)`: axes 0–2 must agree. -/
def maskBad (c : Config) : Bool :=
  match c.maskDims with
  | none => false
  | some md => ¬ (c.dataDims.take 3 = md.take 3)

/-- The multiband-factor block (`run()`, lines 92–99): `mb == 0` or
`mb == data.size(2)` selects volume-to-volume mode with the factor normalised
to the full slice count; otherwise the factor must divide the slice count,
else `Exception("multiband factor invalid.")` (`none`). -/
def normalizeMB (mb nz : Nat) : Option Nat :=
  if mb = 0 ∨ mb = nz then some nz
  else if nz % mb ≠ 0 then none
  else some mb

/-- The initialisation block (`run()`, lines 120–126): without `-init` the
matrix is `Eigen::MatrixXf init(data.size(3), 6)` set to zero; with `-init`
the loaded matrix replaces it after the check
`init.cols() != 6 || ((data.size(3)*data.size(2)) % init.rows())`, whose
failure is `Exception("dimension mismatch in motion initialisaton.")`
(`none`). A loaded (rectangular) matrix's column count is the length of its
first row. -/
def initFromConfig (c : Config) : Option (List (List ℚ)) :=
  match c.initMatrix with
  | none => some (List.replicate c.nv (List.replicate 6 (0 : ℚ)))
  | some m =>
      if (m.getD 0 []).length ≠ 6 ∨ (c.nv * c.nz) % m.length ≠ 0 then none
      else some m

/-- Checks `check_dimensions(data, data2)` and `check_dimensions(mssh, mssh2)` of
the multiecho block (`run()`, lines 134–141): all axes must agree. -/
def echoBad (c : Config) : Bool :=
  match c.multiecho with
  | none => false
  | some (d2, m2) => ¬ (c.dataDims = d2 ∧ c.msshDims = m2)

/-! The registration pipeline.

`SliceAlignSource`, `SliceAlignPipe` and `SliceAlignSink` are declared in
`dwi/svr/register.h`, a file of this repository not present under `src/`;
their behaviour is modelled from the spec (§4.3–§4.5, §5). Tasks are indexed
by a flat identity `t ∈ [0, T)` with `T = nv · (nz / mb)`; the flat index
encodes the (volume-major, slice-group-minor) enumeration order, i.e. task
`(v, g)` has identity `v · (nz/mb) + g`. The numeric registration step of
`SliceAlignPipe` (residual, gradient, optimizer update) is abstracted as a
parameter `refine : SSPKind → Nat → List ℚ → List ℚ` mapping the configured
SSP, the task identity and a 6-parameter estimate to the next estimate. -/

/-- Number of registration tasks: `volumeCount × (sliceCount / mb)`. -/
def numTasks (c : Config) (mb : Nat) : Nat := c.nv * (c.nz / mb)

/-- Flat task identity of the pair (volume `v`, slice-group `g`) in
volume-major, slice-group-minor order. -/
def taskIndex (nG v g : Nat) : Nat := v * nG + g

/-- Modelled from the spec: `SliceAlignSource` seeds each task from the
"(possibly tiled) initial motion matrix" (§4.3); a matrix of `N` rows
(with `N` dividing `nv · nz`) is broadcast/tiled over the `T` tasks by
assigning task `t` the row `⌊t · N / T⌋`. -/
def tiledRow (initM : List (List ℚ)) (T t : Nat) : List ℚ :=
  initM.getD (t * initM.length / T) []

/-- Modelled from the spec: `SliceAlignPipe` iterative refinement (§4.4).
The optimizer applies `step` up to `niter` times; `niter = 0` means "do not
refine — return seed estimate" (convergence inside the iteration budget is
represented by `step` acting as the identity from that point on). -/
def pipeEstimate (step : List ℚ → List ℚ) : Nat → List ℚ → List ℚ
  | 0, s => s
  | n + 1, s => pipeEstimate step n (step s)

/-- The result stream in task-emission order: task `t` paired with its
refined estimate. -/
def taskResults (refine : SSPKind → Nat → List ℚ → List ℚ) (ssp : SSPKind)
    (niter : Nat) (initM : List (List ℚ)) (T : Nat) :
    List (Nat × List ℚ) :=
  (List.range T).map (fun t => (t, pipeEstimate (refine ssp t) niter (tiledRow initM T t)))

/-- Modelled from the spec: `SliceAlignSink` accumulates results "keyed by
task identity" (§4.5), writing each arriving estimate into the row named by
its carried identity; a later write to the same identity wins. -/
def collect (L : List (Nat × List ℚ)) : Nat → Option (List ℚ) :=
  L.foldl (fun f p => Function.update f p.1 (some p.2)) (fun _ => none)

/-- Modelled from the spec: the Sink's completed Motion Parameter Matrix,
rows `0 .. T-1` in task enumeration order. -/
def assemble (T : Nat) (f : Nat → Option (List ℚ)) : List (List ℚ) :=
  (List.range T).map (fun t => (f t).getD [])

/-- The motion matrix produced by a complete pipeline run in which results
are collected in emission order (the single-threaded reference order). -/
def outputOf (refine : SSPKind → Nat → List ℚ → List ℚ) (ssp : SSPKind)
    (niter : Nat) (initM : List (List ℚ)) (T : Nat) : List (List ℚ) :=
  assemble T (collect (taskResults refine ssp niter initM T))

/-! The embedded `run()` body.

`run()` is a straight line of configuration steps followed by the pipeline.
`Stage` names its program points in source order; `Stage.idx` is that order.
The constructor points `srcCtor`/`pipeCtor`/`sinkCtor` are lines 129–131
(`SliceAlignSource`/`SliceAlignPipe`/`SliceAlignSink` construction), the
multiecho check is lines 134–141, `Thread::run_queue` is line 144 and
`save_matrix` line 147. -/

inductive Stage where
  | msshCheck
  | shellsLookup
  | maskCheck
  | mbCheck
  | sspParse
  | initCheck
  | srcCtor
  | pipeCtor
  | sinkCtor
  | echoCheck
  | queue
  | save
deriving DecidableEq

/-- Source-order position of a program point of `run()`. -/
def Stage.idx : Stage → Nat
  | .msshCheck => 0
  | .shellsLookup => 1
  | .maskCheck => 2
  | .mbCheck => 3
  | .sspParse => 4
  | .initCheck => 5
  | .srcCtor => 6
  | .pipeCtor => 7
  | .sinkCtor => 8
  | .echoCheck => 9
  | .queue => 10
  | .save => 11

/-- Outcome of a `run()` call: the saved output matrix, a thrown MRtrix
`Exception` with its message, an uncaught `std::out_of_range`, or undefined
behaviour (dereference of an end iterator). -/
inductive RunResult where
  | ok (motion : List (List ℚ))
  | err (msg : String)
  | oor
  | ub
deriving DecidableEq

/-- The embedded body of `run()` (`src/cmd/dwislicealign.cpp`, lines 69–149):
returns the program point at which execution stopped and the outcome. -/
def run (refine : SSPKind → Nat → List ℚ → List ℚ) (c : Config) :
    Stage × RunResult :=
  if c.msshNdim ≠ 5 then (.msshCheck, .err "5-D MSSH image expected.")
  else
    match findShells c.msshKeyval with
    | none => (.shellsLookup, .ub)
    | some _ =>
        if maskBad c then (.maskCheck, .err "dimension mismatch between images")
        else
          match normalizeMB (c.mbOpt.getD 0) c.nz with
          | none => (.mbCheck, .err "multiband factor invalid.")
          | some mb =>
              match parseSSPArg c.sspArg c.sspVector with
              | .error .oor => (.sspParse, .oor)
              | .error .invalidSSP => (.sspParse, .err "Invalid argument for SSP.")
              | .ok ssp =>
                  match initFromConfig c with
                  | none => (.initCheck, .err "dimension mismatch in motion initialisaton.")
                  | some initM =>
                      if echoBad c then (.echoCheck, .err "dimension mismatch between images")
                      else
                        (.save, .ok (outputOf refine ssp (c.maxiterOpt.getD 0) initM (numTasks c mb)))

/-! Concrete configurations used to instantiate the theorems below. -/

/-- Valid configuration: a 2×2×4 image with 3 volumes, multiband factor 2,
no mask, default SSP, no initial motion, no multiecho. -/
def cfgA : Config :=
  { dataDims := [2, 2, 4, 3], msshNdim := 5, msshDims := [2, 2, 4, 4, 2],
    msshKeyval := [("shells", "0 1000")], maskDims := none, mbOpt := some 2,
    sspArg := none, sspVector := none, initMatrix := none, maxiterOpt := none,
    multiecho := none }

/-- Valid configuration with a single slice and two volumes (two tasks). -/
def cfgB : Config :=
  { dataDims := [1, 1, 1, 2], msshNdim := 5, msshDims := [1, 1, 1, 4, 1],
    msshKeyval := [("shells", "0")], maskDims := none, mbOpt := none,
    sspArg := none, sspVector := none, initMatrix := none, maxiterOpt := none,
    multiecho := none }

/-- Configuration that is valid except that the second-echo DWI image has a
fourth-axis size of 4 instead of 3. -/
def cfgEcho : Config :=
  { dataDims := [2, 2, 2, 3], msshNdim := 5, msshDims := [2, 2, 2, 4, 1],
    msshKeyval := [("shells", "0")], maskDims := none, mbOpt := none,
    sspArg := none, sspVector := none, initMatrix := none, maxiterOpt := none,
    multiecho := some ([2, 2, 2, 4], [2, 2, 2, 4, 1]) }

/-- Configuration whose SSP argument parses as a float overflowing `float`
range. -/
def cfgOor : Config := { cfgA with sspArg := some "1e100" }

/-! Helper lemmas. -/

/-- The Sink's accumulated state does not depend on the arrival order of
results, provided no two results carry the same identity. -/
theorem collect_perm {L L' : List (Nat × List ℚ)} (h : L.Perm L')
    (hnd : (L.map Prod.fst).Nodup) : collect L = collect L' := by
  unfold collect
  refine h.foldl_eq' ?_ _
  intro x hx y hy z
  by_cases hxy : x = y
  · subst hxy; rfl
  · have hk : x.1 ≠ y.1 := fun hk =>
      hxy (List.inj_on_of_nodup_map hnd hx hy hk)
    exact Function.update_comm hk _ _ _

/-- Collecting the emission-order result stream of `g` yields the map
`t ↦ g t` on `[0, T)`. -/
theorem collect_map_range (g : Nat → List ℚ) (T t : Nat) :
    collect ((List.range T).map (fun i => (i, g i))) t =
      if t < T then some (g t) else none := by
  induction T with
  | zero => simp [collect]
  | succ n ih =>
      unfold collect at ih ⊢
      rw [List.range_succ, List.map_append, List.foldl_append]
      simp only [List.map_cons, List.map_nil, List.foldl_cons, List.foldl_nil]
      rw [Function.update_apply]
      by_cases hte : t = n
      · subst hte; simp
      · rw [if_neg hte, ih]
        by_cases htn : t < n
        · rw [if_pos htn, if_pos (Nat.lt_succ_of_lt htn)]
        · rw [if_neg htn, if_neg (by omega)]

/-- Assembling the collected emission-order stream reproduces the row list
`[g 0, …, g (T-1)]`. -/
theorem assemble_collect (g : Nat → List ℚ) (T : Nat) :
    assemble T (collect ((List.range T).map (fun i => (i, g i)))) =
      (List.range T).map g := by
  unfold assemble
  refine List.map_congr_left ?_
  intro t ht
  rw [collect_map_range, if_pos (List.mem_range.mp ht)]
  rfl

/-- The identities carried by the emission-order result stream are exactly
`0, …, T-1`. -/
theorem taskResults_keys (refine : SSPKind → Nat → List ℚ → List ℚ)
    (ssp : SSPKind) (niter : Nat) (initM : List (List ℚ)) (T : Nat) :
    (taskResults refine ssp niter initM T).map Prod.fst = List.range T := by
  simp [taskResults, List.map_map, Function.comp_def]

/-- Every row of the initial motion matrix produced by `initFromConfig` has
6 entries, provided a caller-supplied matrix is rectangular with 6 columns
beyond its first row (as `load_matrix` guarantees). -/
theorem initFromConfig_rows {c : Config} {initM : List (List ℚ)}
    (h : initFromConfig c = some initM)
    (hrect : ∀ m, c.initMatrix = some m → ∀ r ∈ m, r.length = 6) :
    ∀ r ∈ initM, r.length = 6 := by
  unfold initFromConfig at h
  cases hc : c.initMatrix with
  | none =>
      rw [hc] at h
      injection h with h
      subst h
      intro r hr
      rw [List.eq_of_mem_replicate hr]
      exact List.length_replicate 6 0
  | some m =>
      rw [hc] at h
      dsimp only at h
      by_cases hbad : (m.getD 0 []).length ≠ 6 ∨ (c.nv * c.nz) % m.length ≠ 0
      · rw [if_pos hbad] at h; cases h
      · rw [if_neg hbad] at h
        injection h with h
        subst h
        exact hrect m hc

/-- The initial motion matrix is nonempty whenever the volume and slice
counts are positive. -/
theorem initFromConfig_pos {c : Config} {initM : List (List ℚ)}
    (h : initFromConfig c = some initM) (hnv : 0 < c.nv) (hnz : 0 < c.nz) :
    0 < initM.length := by
  unfold initFromConfig at h
  cases hc : c.initMatrix with
  | none =>
      rw [hc] at h
      injection h with h
      subst h
      simpa using hnv
  | some m =>
      rw [hc] at h
      dsimp only at h
      by_cases hbad : (m.getD 0 []).length ≠ 6 ∨ (c.nv * c.nz) % m.length ≠ 0
      · rw [if_pos hbad] at h; cases h
      · rw [if_neg hbad] at h
        injection h with h
        subst h
        push_neg at hbad
        rcases Nat.eq_zero_or_pos m.length with h0 | hpos
        · exfalso
          have hmul : 0 < c.nv * c.nz := Nat.mul_pos hnv hnz
          rw [h0, Nat.mod_zero] at hbad
          omega
        · exact hpos

/-- For `t < T` the tiled row index stays inside the matrix. -/
theorem tiledRow_mem {initM : List (List ℚ)} {T t : Nat} (ht : t < T)
    (hpos : 0 < initM.length) : tiledRow initM T t ∈ initM := by
  unfold tiledRow
  have hidx : t * initM.length / T < initM.length := by
    exact Nat.div_lt_of_lt_mul (Nat.mul_lt_mul_of_pos_right ht hpos)
  rw [List.getD_eq_getElem initM [] hidx]
  exact List.getElem_mem hidx

/-- The iterative refinement preserves the 6-parameter shape when each step
does. -/
theorem pipeEstimate_length (step : List ℚ → List ℚ)
    (hstep : ∀ s, s.length = 6 → (step s).length = 6) :
    ∀ (n : Nat) (s : List ℚ), s.length = 6 → (pipeEstimate step n s).length = 6
  | 0, _, h => h
  | n + 1, s, h => pipeEstimate_length step hstep n (step s) (hstep s h)

/-- Unfolding of the embedded `run()` when every configuration check
passes. -/
theorem run_ok (refine : SSPKind → Nat → List ℚ → List ℚ) (c : Config)
    (mb : Nat) (ssp : SSPKind) (initM : List (List ℚ))
    (h5 : c.msshNdim = 5)
    (hsh : (findShells c.msshKeyval).isSome)
    (hmask : maskBad c = false)
    (hmb : normalizeMB (c.mbOpt.getD 0) c.nz = some mb)
    (hssp : parseSSPArg c.sspArg c.sspVector = .ok ssp)
    (hinit : initFromConfig c = some initM)
    (hecho : echoBad c = false) :
    run refine c =
      (.save, .ok (outputOf refine ssp (c.maxiterOpt.getD 0) initM (numTasks c mb))) := by
  obtain ⟨s, hs⟩ := Option.isSome_iff_exists.mp hsh
  simp [run, h5, hs, hmask, hmb, hssp, hinit, hecho]


/-! Claim theorems. -/

/-- C1: for every valid configuration, the output Motion Parameter Matrix
has `volumeCount × (sliceCount / mb)` rows of 6 entries each, rows ordered
volume-major then slice-group-minor (row `v·(nz/mb)+g` carries the result of
task `(v, g)`); and when the `mb` option is 0 or equals the slice count, the
multiband factor is normalised to the full slice count, so the row count
equals the volume count. -/
theorem c1_output_shape (refine : SSPKind → Nat → List ℚ → List ℚ)
    (c : Config) (mb : Nat) (ssp : SSPKind) (initM : List (List ℚ))
    (h5 : c.msshNdim = 5) (hsh : (findShells c.msshKeyval).isSome)
    (hmask : maskBad c = false)
    (hmb : normalizeMB (c.mbOpt.getD 0) c.nz = some mb)
    (hssp : parseSSPArg c.sspArg c.sspVector = .ok ssp)
    (hinit : initFromConfig c = some initM)
    (hecho : echoBad c = false)
    (hrect : ∀ m, c.initMatrix = some m → ∀ r ∈ m, r.length = 6)
    (hstep : ∀ k t s, s.length = 6 → (refine k t s).length = 6) :
    ∃ motion, (run refine c).2 = RunResult.ok motion
      ∧ motion.length = c.nv * (c.nz / mb)
      ∧ (∀ r ∈ motion, r.length = 6)
      ∧ (∀ v g, v < c.nv → g < c.nz / mb →
          motion[taskIndex (c.nz / mb) v g]? =
            some (pipeEstimate (refine ssp (taskIndex (c.nz / mb) v g))
              (c.maxiterOpt.getD 0)
              (tiledRow initM (numTasks c mb) (taskIndex (c.nz / mb) v g))))
      ∧ ((c.mbOpt.getD 0 = 0 ∨ c.mbOpt.getD 0 = c.nz) → 0 < c.nz →
          mb = c.nz ∧ motion.length = c.nv) := by
  rw [run_ok refine c mb ssp initM h5 hsh hmask hmb hssp hinit hecho]
  have houtput : outputOf refine ssp (c.maxiterOpt.getD 0) initM (numTasks c mb) =
      (List.range (numTasks c mb)).map
        (fun t => pipeEstimate (refine ssp t) (c.maxiterOpt.getD 0)
          (tiledRow initM (numTasks c mb) t)) := by
    simp only [outputOf, taskResults]
    rw [assemble_collect]
  refine ⟨_, rfl, ?_, ?_, ?_, ?_⟩
  · rw [houtput, List.length_map, List.length_range, numTasks]
  · rw [houtput]
    intro r hr
    obtain ⟨t, ht, rfl⟩ := List.mem_map.mp hr
    have htT : t < numTasks c mb := List.mem_range.mp ht
    have hTpos : 0 < numTasks c mb := Nat.lt_of_le_of_lt (Nat.zero_le t) htT
    have hnv : 0 < c.nv := by
      rcases Nat.eq_zero_or_pos c.nv with h0 | h
      · rw [numTasks, h0] at hTpos; omega
      · exact h
    have hnz : 0 < c.nz := by
      rcases Nat.eq_zero_or_pos c.nz with h0 | h
      · rw [numTasks, h0] at hTpos; simp at hTpos
      · exact h
    have hpos := initFromConfig_pos hinit hnv hnz
    exact pipeEstimate_length (refine ssp t) (hstep ssp t) _ _
      (initFromConfig_rows hinit hrect _ (tiledRow_mem htT hpos))
  · rw [houtput]
    intro v g hv hg
    have hidx : taskIndex (c.nz / mb) v g < numTasks c mb := by
      rw [taskIndex, numTasks]
      calc v * (c.nz / mb) + g < v * (c.nz / mb) + c.nz / mb :=
            Nat.add_lt_add_left hg _
        _ = (v + 1) * (c.nz / mb) := by ring
        _ ≤ c.nv * (c.nz / mb) :=
            Nat.mul_le_mul_right _ (Nat.succ_le_of_lt hv)
    rw [List.getElem?_map, List.getElem?_range hidx]
    rfl
  · intro hmb0 hnz
    have hmbnz : mb = c.nz := by
      rw [normalizeMB, if_pos hmb0] at hmb
      injection hmb with hmb
      exact hmb.symm
    refine ⟨hmbnz, ?_⟩
    rw [houtput, List.length_map, List.length_range, numTasks, hmbnz,
      Nat.div_self hnz, Nat.mul_one]

/-- Witness for C1 on `cfgA` (12 tasks, multiband factor 2, identity
refinement step). -/
theorem c1_witness :
    ∃ motion, (run (fun _ _ s => s) cfgA).2 = RunResult.ok motion
      ∧ motion.length = cfgA.nv * (cfgA.nz / 2)
      ∧ (∀ r ∈ motion, r.length = 6)
      ∧ (∀ v g, v < cfgA.nv → g < cfgA.nz / 2 →
          motion[taskIndex (cfgA.nz / 2) v g]? =
            some (pipeEstimate ((fun _ _ s => s : SSPKind → Nat → List ℚ → List ℚ)
                defaultSSP (taskIndex (cfgA.nz / 2) v g))
              (cfgA.maxiterOpt.getD 0)
              (tiledRow (List.replicate 3 (List.replicate 6 (0 : ℚ)))
                (numTasks cfgA 2) (taskIndex (cfgA.nz / 2) v g))))
      ∧ ((cfgA.mbOpt.getD 0 = 0 ∨ cfgA.mbOpt.getD 0 = cfgA.nz) → 0 < cfgA.nz →
          2 = cfgA.nz ∧ motion.length = cfgA.nv) :=
  c1_output_shape (fun _ _ s => s) cfgA 2 defaultSSP
    (List.replicate 3 (List.replicate 6 (0 : ℚ)))
    rfl (by decide) rfl rfl rfl rfl rfl
    (fun m hm => by cases hm) (fun _ _ _ h => h)

/-- C2: the final output matrix is the same for every arrival order of the
task results. Any list `L` that is a permutation of the emission-order result
stream, fed to the Sink, assembles to exactly the matrix the run produces:
row `r` depends only on the result carrying identity `r`, not on arrival
order. -/
theorem c2_determinism (refine : SSPKind → Nat → List ℚ → List ℚ)
    (c : Config) (mb : Nat) (ssp : SSPKind) (initM : List (List ℚ))
    (L : List (Nat × List ℚ))
    (h5 : c.msshNdim = 5) (hsh : (findShells c.msshKeyval).isSome)
    (hmask : maskBad c = false)
    (hmb : normalizeMB (c.mbOpt.getD 0) c.nz = some mb)
    (hssp : parseSSPArg c.sspArg c.sspVector = .ok ssp)
    (hinit : initFromConfig c = some initM)
    (hecho : echoBad c = false)
    (hL : L.Perm (taskResults refine ssp (c.maxiterOpt.getD 0) initM (numTasks c mb))) :
    (run refine c).2 = RunResult.ok (assemble (numTasks c mb) (collect L)) := by
  rw [run_ok refine c mb ssp initM h5 hsh hmask hmb hssp hinit hecho]
  have hnd : (L.map Prod.fst).Nodup := by
    have hperm := hL.map Prod.fst
    rw [taskResults_keys] at hperm
    exact hperm.nodup_iff.mpr (List.nodup_range (numTasks c mb))
  rw [outputOf, collect_perm hL hnd]

/-- Witness for C2 on `cfgB`: the two task results delivered in reversed
order assemble to the run's output. -/
theorem c2_witness :
    [(1, List.replicate 6 (0 : ℚ)),
     (0, List.replicate 6 (0 : ℚ))].Perm
      (taskResults (fun _ _ s => s) defaultSSP (cfgB.maxiterOpt.getD 0)
        (List.replicate 2 (List.replicate 6 (0 : ℚ))) (numTasks cfgB 1))
    ∧ (run (fun _ _ s => s) cfgB).2 =
        RunResult.ok (assemble (numTasks cfgB 1)
          (collect [(1, List.replicate 6 (0 : ℚ)),
                    (0, List.replicate 6 (0 : ℚ))])) := by
  have hL : [(1, List.replicate 6 (0 : ℚ)),
      (0, List.replicate 6 (0 : ℚ))].Perm
      (taskResults (fun _ _ s => s) defaultSSP (cfgB.maxiterOpt.getD 0)
        (List.replicate 2 (List.replicate 6 (0 : ℚ))) (numTasks cfgB 1)) := by
    decide
  exact ⟨hL, c2_determinism (fun _ _ s => s) cfgB 1 defaultSSP
    (List.replicate 2 (List.replicate 6 (0 : ℚ))) _
    rfl (by decide) rfl rfl rfl rfl rfl hL⟩

/-- C3: when the maximum iteration count is 0 — also the default when the
`maxiter` option is absent — the output motion matrix equals the tiled
initial motion matrix exactly. -/
theorem c3_maxiter_zero (refine : SSPKind → Nat → List ℚ → List ℚ)
    (c : Config) (mb : Nat) (ssp : SSPKind) (initM : List (List ℚ))
    (h5 : c.msshNdim = 5) (hsh : (findShells c.msshKeyval).isSome)
    (hmask : maskBad c = false)
    (hmb : normalizeMB (c.mbOpt.getD 0) c.nz = some mb)
    (hssp : parseSSPArg c.sspArg c.sspVector = .ok ssp)
    (hinit : initFromConfig c = some initM)
    (hecho : echoBad c = false)
    (hiter : c.maxiterOpt = none ∨ c.maxiterOpt = some 0) :
    (run refine c).2 =
      RunResult.ok ((List.range (numTasks c mb)).map
        (fun t => tiledRow initM (numTasks c mb) t)) := by
  have h0 : c.maxiterOpt.getD 0 = 0 := by rcases hiter with h | h <;> simp [h]
  rw [run_ok refine c mb ssp initM h5 hsh hmask hmb hssp hinit hecho]
  simp only [outputOf, h0, taskResults, pipeEstimate]
  rw [assemble_collect]

/-- Witness for C3 on `cfgA` (maxiter absent, hence 0). -/
theorem c3_witness :
    (run (fun _ _ s => s) cfgA).2 =
      RunResult.ok ((List.range (numTasks cfgA 2)).map
        (fun t => tiledRow (List.replicate 3 (List.replicate 6 (0 : ℚ)))
          (numTasks cfgA 2) t)) :=
  c3_maxiter_zero (fun _ _ s => s) cfgA 2 defaultSSP
    (List.replicate 3 (List.replicate 6 (0 : ℚ)))
    rfl (by decide) rfl rfl rfl rfl rfl (Or.inl rfl)

/-- Exhaustive case analysis of the embedded `run()`: it either saves an
output matrix or stops at one of the seven failure points with the
corresponding outcome. -/
theorem run_cases (refine : SSPKind → Nat → List ℚ → List ℚ) (c : Config) :
    (∃ m, run refine c = (Stage.save, RunResult.ok m))
    ∨ run refine c = (Stage.msshCheck, RunResult.err "5-D MSSH image expected.")
    ∨ run refine c = (Stage.shellsLookup, RunResult.ub)
    ∨ run refine c = (Stage.maskCheck, RunResult.err "dimension mismatch between images")
    ∨ run refine c = (Stage.mbCheck, RunResult.err "multiband factor invalid.")
    ∨ run refine c = (Stage.sspParse, RunResult.oor)
    ∨ run refine c = (Stage.sspParse, RunResult.err "Invalid argument for SSP.")
    ∨ run refine c = (Stage.initCheck, RunResult.err "dimension mismatch in motion initialisaton.")
    ∨ run refine c = (Stage.echoCheck, RunResult.err "dimension mismatch between images") := by
  unfold run
  repeat' split
  all_goals simp

/-- C4 counterexample: on `cfgEcho` the multiecho second-echo dimension
mismatch is a configuration error, yet it is raised at the multiecho check
(lines 134–141), a program point strictly after the construction of the
pipeline components `SliceAlignSource`/`Pipe`/`Sink` (lines 129–131) — so
not every configuration error is detected before pipeline construction. -/
theorem c4_counterexample :
    (run (fun _ _ s => s) cfgEcho).2 = RunResult.err "dimension mismatch between images"
    ∧ (run (fun _ _ s => s) cfgEcho).1 = Stage.echoCheck
    ∧ Stage.idx Stage.srcCtor < Stage.idx Stage.echoCheck := by
  refine ⟨?_, ?_, by decide⟩ <;> rfl

/-- C4 (amended): every configuration error aborts the run before
`Thread::run_queue` (no registration work, no output); all such errors
except the multiecho second-echo dimension mismatch are raised before the
pipeline components are constructed, while the multiecho check happens after
construction but still before any task runs. -/
theorem c4_amended_errors (refine : SSPKind → Nat → List ℚ → List ℚ)
    (c : Config) (msg : String) (h : (run refine c).2 = RunResult.err msg) :
    Stage.idx (run refine c).1 < Stage.idx Stage.queue
    ∧ ((run refine c).1 ≠ Stage.echoCheck →
        Stage.idx (run refine c).1 < Stage.idx Stage.srcCtor)
    ∧ ∀ m, (run refine c).2 ≠ RunResult.ok m := by
  rcases run_cases refine c with ⟨m, hm⟩ | h1 | h1 | h1 | h1 | h1 | h1 | h1 | h1
  · rw [hm] at h; cases h
  all_goals rw [h1] at h ⊢
  all_goals exact ⟨by decide, by decide, fun m hcon => RunResult.noConfusion hcon⟩

/-- Witness for the amended C4 on `cfgEcho`. -/
theorem c4_amended_witness :
    Stage.idx (run (fun _ _ s => s) cfgEcho).1 < Stage.idx Stage.queue
    ∧ ((run (fun _ _ s => s) cfgEcho).1 ≠ Stage.echoCheck →
        Stage.idx (run (fun _ _ s => s) cfgEcho).1 < Stage.idx Stage.srcCtor)
    ∧ ∀ m, (run (fun _ _ s => s) cfgEcho).2 ≠ RunResult.ok m :=
  c4_amended_errors (fun _ _ s => s) cfgEcho "dimension mismatch between images" rfl

/-- C5: the SSP argument is parsed by first attempting `std::stof`; on
`std::invalid_argument` the vector load is attempted; if that also fails the
fatal configuration error is raised. The resulting SSP (scalar width or
weight vector) is decided once at configuration time: the run's behaviour
depends on the SSP option only through the parse result. -/
theorem c5_ssp_decided_once (t : String) (lv : Option (List ℚ))
    (refine : SSPKind → Nat → List ℚ → List ℚ) (c : Config)
    (a1 a2 : Option String) (v1 v2 : Option (List ℚ)) :
    (∀ n e, stofModel t = .ok n e → parseSSPArg (some t) lv = .ok (.scalar n e))
    ∧ (∀ w, stofModel t = .invalidArg → lv = some w →
        parseSSPArg (some t) lv = .ok (.vec w))
    ∧ (stofModel t = .invalidArg → lv = none →
        parseSSPArg (some t) lv = .error .invalidSSP)
    ∧ (parseSSPArg a1 v1 = parseSSPArg a2 v2 →
        run refine { c with sspArg := a1, sspVector := v1 } =
          run refine { c with sspArg := a2, sspVector := v2 }) := by
  refine ⟨?_, ?_, ?_, ?_⟩
  · intro n e h
    simp [parseSSPArg, h]
  · intro w h hl
    subst hl
    simp [parseSSPArg, h]
  · intro h hl
    subst hl
    simp [parseSSPArg, h]
  · intro h
    obtain ⟨dd, mn, md, kv, mk, mb, sa, sv, im, mi, me⟩ := c
    simp only [run, maskBad, echoBad, initFromConfig, numTasks, Config.nz,
      Config.nv]
    rw [h]

/-- Witness for C5: scalar parse, vector fallback, double failure, and
invariance of the run under an equal parse result. -/
theorem c5_witness :
    parseSSPArg (some "2.5") none = .ok (.scalar 25 (-1))
    ∧ parseSSPArg (some "x") (some [1, 2]) = .ok (.vec [1, 2])
    ∧ parseSSPArg (some "x") none = .error .invalidSSP
    ∧ run (fun _ _ s => s) { cfgA with sspArg := some "2.5", sspVector := none } =
        run (fun _ _ s => s) { cfgA with sspArg := some " 2.5", sspVector := none } := by
  refine ⟨?_, ?_, ?_, ?_⟩
  · exact (c5_ssp_decided_once "2.5" none (fun _ _ s => s) cfgA none none none none).1
      25 (-1) (by decide)
  · exact (c5_ssp_decided_once "x" (some [1, 2]) (fun _ _ s => s) cfgA none none
      none none).2.1 [1, 2] (by decide) rfl
  · exact (c5_ssp_decided_once "x" none (fun _ _ s => s) cfgA none none
      none none).2.2.1 (by decide) rfl
  · exact (c5_ssp_decided_once "x" none (fun _ _ s => s) cfgA (some "2.5")
      (some " 2.5") none none).2.2.2 rfl

/-- C6: a multiband factor that is neither 0 nor the slice count and does
not divide the slice count makes the run fail with the fatal configuration
error `multiband factor invalid.` at the multiband check, before pipeline
construction and before any registration work. -/
theorem c6_invalid_mb (refine : SSPKind → Nat → List ℚ → List ℚ) (c : Config)
    (h5 : c.msshNdim = 5) (hsh : (findShells c.msshKeyval).isSome)
    (hmask : maskBad c = false)
    (h1 : c.mbOpt.getD 0 ≠ 0) (h2 : c.mbOpt.getD 0 ≠ c.nz)
    (h3 : c.nz % c.mbOpt.getD 0 ≠ 0) :
    run refine c = (Stage.mbCheck, RunResult.err "multiband factor invalid.")
    ∧ Stage.idx Stage.mbCheck < Stage.idx Stage.srcCtor
    ∧ Stage.idx Stage.mbCheck < Stage.idx Stage.queue := by
  obtain ⟨s, hs⟩ := Option.isSome_iff_exists.mp hsh
  have hnone : normalizeMB (c.mbOpt.getD 0) c.nz = none := by
    unfold normalizeMB
    rw [if_neg (by tauto), if_pos h3]
  refine ⟨?_, by decide, by decide⟩
  simp [run, h5, hs, hmask, hnone]

/-- Witness for C6: slice count 4 with multiband factor 3. -/
theorem c6_witness :
    run (fun _ _ s => s) { cfgA with mbOpt := some 3 } =
      (Stage.mbCheck, RunResult.err "multiband factor invalid.")
    ∧ Stage.idx Stage.mbCheck < Stage.idx Stage.srcCtor
    ∧ Stage.idx Stage.mbCheck < Stage.idx Stage.queue :=
  c6_invalid_mb _ _ rfl (by decide) (by decide) (by decide) (by decide) (by decide)

/-- C7: an initial motion matrix whose column count is not 6 or whose row
count does not evenly divide `volumeCount × sliceCount` is rejected with the
fatal configuration error `dimension mismatch in motion initialisaton.`
before any task runs. -/
theorem c7_invalid_init (refine : SSPKind → Nat → List ℚ → List ℚ)
    (c : Config) (m : List (List ℚ)) (ssp : SSPKind)
    (h5 : c.msshNdim = 5) (hsh : (findShells c.msshKeyval).isSome)
    (hmask : maskBad c = false)
    (hmb : ∃ mb, normalizeMB (c.mbOpt.getD 0) c.nz = some mb)
    (hssp : parseSSPArg c.sspArg c.sspVector = .ok ssp)
    (hm : c.initMatrix = some m)
    (hbad : (m.getD 0 []).length ≠ 6 ∨ (c.nv * c.nz) % m.length ≠ 0) :
    run refine c =
      (Stage.initCheck, RunResult.err "dimension mismatch in motion initialisaton.")
    ∧ Stage.idx Stage.initCheck < Stage.idx Stage.queue := by
  obtain ⟨s, hs⟩ := Option.isSome_iff_exists.mp hsh
  obtain ⟨mb, hmb⟩ := hmb
  have hin : initFromConfig c = none := by
    unfold initFromConfig
    rw [hm]
    dsimp only
    rw [if_pos hbad]
  refine ⟨?_, by decide⟩
  simp [run, h5, hs, hmask, hmb, hssp, hin]

/-- Witness for C7: a 1×3 initial matrix (wrong column count). -/
theorem c7_witness :
    run (fun _ _ s => s) { cfgA with initMatrix := some [[1, 2, 3]] } =
      (Stage.initCheck, RunResult.err "dimension mismatch in motion initialisaton.")
    ∧ Stage.idx Stage.initCheck < Stage.idx Stage.queue :=
  c7_invalid_init _ _ [[1, 2, 3]] defaultSSP rfl (by decide) rfl
    ⟨2, rfl⟩ rfl rfl (by decide)

/-- C8: when no initial motion matrix is supplied, the default matrix has
`volumeCount` rows of zeros, and the seed drawn from it (tiled per
slice-group) is the identity transform — all six parameters zero — for every
task. -/
theorem c8_default_seed (c : Config) (hnone : c.initMatrix = none) :
    initFromConfig c = some (List.replicate c.nv (List.replicate 6 (0 : ℚ)))
    ∧ ∀ T t, t < T → 0 < c.nv →
        tiledRow (List.replicate c.nv (List.replicate 6 (0 : ℚ))) T t =
          List.replicate 6 (0 : ℚ) := by
  constructor
  · unfold initFromConfig
    rw [hnone]
  · intro T t ht hv
    have hmem := @tiledRow_mem (List.replicate c.nv (List.replicate 6 (0 : ℚ)))
      T t ht (by simpa using hv)
    exact List.eq_of_mem_replicate hmem

/-- Witness for C8 on `cfgA` (3 volumes, 6 tasks, task 2). -/
theorem c8_witness :
    initFromConfig cfgA = some (List.replicate cfgA.nv (List.replicate 6 (0 : ℚ)))
    ∧ tiledRow (List.replicate cfgA.nv (List.replicate 6 (0 : ℚ))) 6 2 =
        List.replicate 6 (0 : ℚ) := by
  have h := c8_default_seed cfgA rfl
  exact ⟨h.1, h.2 6 2 (by decide) (by decide)⟩

/-- C9: the shell-index lookup dereferences `keyval().find("shells")` with
no guard, so whenever the (5-D) MSSH header lacks a `shells` key, the run
reaches the dereference of the end iterator (undefined behaviour); the
lookup is well-defined only under the precondition that the key exists. -/
theorem c9_shells_precondition (refine : SSPKind → Nat → List ℚ → List ℚ)
    (c : Config) (h5 : c.msshNdim = 5)
    (habs : ∀ p ∈ c.msshKeyval, p.1 ≠ "shells") :
    run refine c = (Stage.shellsLookup, RunResult.ub) := by
  have hn : findShells c.msshKeyval = none := by
    unfold findShells
    rw [List.find?_eq_none.mpr (by intro p hp; simpa using habs p hp)]
    rfl
  simp [run, h5, hn]

/-- Witness for C9: a header with no `shells` key. -/
theorem c9_witness :
    run (fun _ _ s => s) { cfgA with msshKeyval := [("foo", "bar")] } =
      (Stage.shellsLookup, RunResult.ub) :=
  c9_shells_precondition _ _ rfl (by decide)

/-- C10: `std::stof` accepts a parsable leading float with trailing text
ignored, so the SSP string `1.5abc` yields the scalar width 1.5 (the vector
fallback is not consulted); and a scalar overflowing `float` range raises
`std::out_of_range`, which is caught by neither handler: the run aborts with
the uncaught exception instead of the `Invalid argument for SSP.`
configuration error, regardless of what the vector load would return. -/
theorem c10_stof_fallback_scope (refine : SSPKind → Nat → List ℚ → List ℚ)
    (c : Config) (h5 : c.msshNdim = 5)
    (hsh : (findShells c.msshKeyval).isSome) (hmask : maskBad c = false)
    (hmb : ∃ mb, normalizeMB (c.mbOpt.getD 0) c.nz = some mb)
    (harg : c.sspArg = some "1e100") :
    stofModel "1.5abc" = .ok 15 (-1)
    ∧ decValue 15 (-1) = 3 / 2
    ∧ (∀ w, parseSSPArg (some "1.5abc") w = .ok (.scalar 15 (-1)))
    ∧ stofModel "1e100" = .outOfRange
    ∧ (∀ w, parseSSPArg (some "1e100") w = .error .oor)
    ∧ run refine c = (Stage.sspParse, RunResult.oor)
    ∧ RunResult.oor ≠ RunResult.err "Invalid argument for SSP." := by
  obtain ⟨s, hs⟩ := Option.isSome_iff_exists.mp hsh
  obtain ⟨mb, hmb⟩ := hmb
  have hoor : stofModel "1e100" = .outOfRange := by decide
  have hp : ∀ w, parseSSPArg (some "1e100") w = .error .oor := by
    intro w
    simp [parseSSPArg, hoor]
  refine ⟨by decide, ?_, ?_, hoor, hp, ?_, by simp⟩
  · rw [decValue]
    norm_num
  · intro w
    simp [parseSSPArg, show stofModel "1.5abc" = .ok 15 (-1) by decide]
  · simp [run, h5, hs, hmask, hmb, harg, hp]

/-- Witness for C10 on `cfgOor`. -/
theorem c10_witness :
    stofModel "1.5abc" = .ok 15 (-1)
    ∧ decValue 15 (-1) = 3 / 2
    ∧ (∀ w, parseSSPArg (some "1.5abc") w = .ok (.scalar 15 (-1)))
    ∧ stofModel "1e100" = .outOfRange
    ∧ (∀ w, parseSSPArg (some "1e100") w = .error .oor)
    ∧ run (fun _ _ s => s) cfgOor = (Stage.sspParse, RunResult.oor)
    ∧ RunResult.oor ≠ RunResult.err "Invalid argument for SSP." :=
  c10_stof_fallback_scope (fun _ _ s => s) cfgOor rfl (by decide) rfl
    ⟨2, by decide⟩ rfl

end DwiSliceAlign
